import Mathlib

/-!
Verification of the padding-and-stride arithmetic of the d2l notebook
`chapter_convolutional-neural-networks/padding-and-strides.ipynb`.

The notebook states the convolution output-shape formula
⌊(n - k + p + s)/s⌋ per axis in its markdown, demonstrates it with
concrete `nn.LazyConv2d` calls, demonstrates mirror ("reflect") padding
via `nn.functional.pad(..., mode='reflect')` on an 8×8 grid, and wraps
`nn.ConvTranspose1d(stride=2, padding=1, output_padding=1)` in its
final exercise.  The shallow embedding below models these computations
over `Int`/`Nat`; the error-signalling policy (which the notebook itself
leaves to the library) is modelled from the spec where noted.
-/

namespace D2L

/-- The two error kinds of the spec's error-handling design:
`InvalidArgument` for a parameter out of its own domain,
`InvalidGeometry` for jointly inconsistent geometry. -/
inductive ConvError where
  | InvalidArgument : ConvError
  | InvalidGeometry : ConvError
deriving DecidableEq, Repr

/-- Per-axis geometry of a sliding-window (convolution) operation:
input extent, kernel extent, *total* padding along the axis, and stride.
Padding is non-negative by type, matching the data model. -/
structure AxisSpec where
  input_size : Int
  kernel_size : Int
  padding : Nat
  stride : Int
deriving DecidableEq, Repr

/-- The numerator of the notebook's output-shape formula:
`n - k + p + s` for one axis. -/
def formulaNum (a : AxisSpec) : Int :=
  a.input_size - a.kernel_size + a.padding + a.stride

/-- The argument-domain check of `output_size`: some parameter is
non-positive on its face. -/
def badArgs (a : AxisSpec) : Prop :=
  a.stride ≤ 0 ∨ a.kernel_size ≤ 0 ∨ a.input_size ≤ 0

instance (a : AxisSpec) : Decidable (badArgs a) := by
  unfold badArgs; infer_instance

/-- The geometry check of `output_size`: parameters individually fine but
jointly implying a non-positive or undefined output extent. -/
def badGeom (a : AxisSpec) : Prop :=
  formulaNum a ≤ 0 ∨ a.kernel_size > a.input_size + a.padding

instance (a : AxisSpec) : Decidable (badGeom a) := by
  unfold badGeom; infer_instance

/-- Modelled from the spec: `output_size` — the notebook's markdown gives
the per-axis formula `⌊(n - k + p + s)/s⌋` (integer floor division) but
ships no standalone implementation, so the argument checks and the error
policy (`InvalidArgument` for non-positive input/kernel/stride,
`InvalidGeometry` for jointly impossible geometry) follow the spec's
error-handling design.  `Int` division `/` is Euclidean division, which
coincides with floor division for the positive strides that pass the
argument check. -/
def output_size (a : AxisSpec) : Except ConvError Int :=
  if badArgs a then
    .error .InvalidArgument
  else if badGeom a then
    .error .InvalidGeometry
  else
    .ok (formulaNum a / a.stride)

/-- Modelled from the spec: the 2-D convenience `output_shape`, applying
the 1-D formula independently to the height axis and the width axis. -/
def output_shape (hSpec wSpec : AxisSpec) : Except ConvError (Int × Int) := do
  let oh ← output_size hSpec
  let ow ← output_size wSpec
  pure (oh, ow)

/-- A rectangular 2-D grid of values: height `H`, width `W`, and the
value at (row, column); immutable, matching the notebook's tensors.
`val` is total on `Nat × Nat`; the grid's content is its restriction to
`row < H`, `col < W`. -/
structure Grid2D (α : Type) where
  H : Nat
  W : Nat
  val : Nat → Nat → α

/-- Edge-exclusive ("reflect") index mapping for one axis of source
extent `N` padded by `p` positions before the source: output position
`i` holds the source position `p - i` when it lies in the before-pad
(the pixel `k` steps outside the boundary mirrors the pixel `k` steps
inside, the boundary pixel itself not duplicated), the source position
`i - p` in the interior, and the source position `2N - 2 - (i - p)` in
the after-pad — exactly the mapping realised by the notebook's
`nn.functional.pad(..., mode='reflect')` demonstration. -/
def reflectIndex (N p : Nat) (i : Nat) : Nat :=
  if i < p then p - i
  else if i - p < N then i - p
  else 2 * N - 2 - (i - p)

/-- A requested pad amount is reflectable only when `p ≤ N - 1`
(computed in `Int` so that a zero-extent axis admits no padding). -/
def padTooBig (N p : Nat) : Prop :=
  (p : Int) > (N : Int) - 1

instance (N p : Nat) : Decidable (padTooBig N p) := by
  unfold padTooBig; infer_instance

/-- Modelled from the spec: `reflect_pad` — the notebook demonstrates
mirror padding only through the library call
`nn.functional.pad(X, (1,1,1,1), mode='reflect')` and its printed
8×8 → 10×10 result; this definition realises that edge-exclusive
reflection for arbitrary per-side pad amounts, rejecting with
`InvalidArgument` any pad amount exceeding the axis extent minus one
as the spec's error policy requires. -/
def reflect_pad (g : Grid2D α) (pt pb pl pr : Nat) :
    Except ConvError (Grid2D α) :=
  if padTooBig g.H pt ∨ padTooBig g.H pb ∨
     padTooBig g.W pl ∨ padTooBig g.W pr then
    .error .InvalidArgument
  else
    .ok ⟨g.H + pt + pb, g.W + pl + pr,
      fun i j => g.val (reflectIndex g.H pt i) (reflectIndex g.W pl j)⟩

/-- Modelled from the spec: the row-axis half of `reflect_pad` — mirror
padding applied to the height axis only (adding `pt` rows above and
`pb` rows below). -/
def reflect_pad_rows (g : Grid2D α) (pt pb : Nat) :
    Except ConvError (Grid2D α) :=
  if padTooBig g.H pt ∨ padTooBig g.H pb then
    .error .InvalidArgument
  else
    .ok ⟨g.H + pt + pb, g.W, fun i j => g.val (reflectIndex g.H pt i) j⟩

/-- Modelled from the spec: the column-axis half of `reflect_pad` —
mirror padding applied to the width axis only (adding `pl` columns on
the left and `pr` columns on the right). -/
def reflect_pad_cols (g : Grid2D α) (pl pr : Nat) :
    Except ConvError (Grid2D α) :=
  if padTooBig g.W pl ∨ padTooBig g.W pr then
    .error .InvalidArgument
  else
    .ok ⟨g.H, g.W + pl + pr, fun i j => g.val i (reflectIndex g.W pl j)⟩

/-- Output length of the 1-D transposed-convolution layer the notebook's
`HalfStrideConvTranspose` wraps: `nn.ConvTranspose1d` with dilation 1
produces `(L - 1)·stride - 2·padding + (kernel - 1) + output_padding + 1`
positions, the documented shape contract of the library layer and the
arithmetic matching the notebook's recorded run (length 10 in, kernel 3,
stride 2, padding 1, output padding 1, length 20 out). -/
def conv_transpose1d_len (L k stride padding output_padding : Nat) : Int :=
  ((L : Int) - 1) * stride - 2 * padding + ((k : Int) - 1) +
    output_padding + 1

/-- The concrete 8×8 grid of the notebook's mirror-padding
demonstration: values 1..64 in row-major order. -/
def demoGrid : Grid2D Int :=
  ⟨8, 8, fun i j => 8 * (i : Int) + (j : Int) + 1⟩

/-! ## Helper lemmas -/

/-- Euclidean division of an integer by a positive integer is floor
division. -/
lemma ediv_eq_rat_floor (a b : Int) (hb : 0 < b) :
    a / b = ⌊(a : ℚ) / (b : ℚ)⌋ := by
  obtain ⟨n, rfl⟩ : ∃ n : Nat, b = (n : Int) :=
    ⟨b.toNat, (Int.toNat_of_nonneg hb.le).symm⟩
  rw [show (((n : Int) : ℚ)) = ((n : ℚ)) from by push_cast; ring]
  exact (Rat.floor_intCast_div_natCast a n).symm

/-- The interior of a reflect-padded axis maps to itself. -/
lemma reflectIndex_interior (N p i : Nat) (h : i < N) :
    reflectIndex N p (p + i) = i := by
  unfold reflectIndex; split_ifs <;> omega

/-- `k` steps before the source (into the before-pad) maps to source
position `k`. -/
lemma reflectIndex_before (N p k : Nat) (h1 : 1 ≤ k) (h2 : k ≤ p) :
    reflectIndex N p (p - k) = k := by
  unfold reflectIndex; split_ifs <;> omega

/-- `k` steps after the source (into the after-pad) maps to source
position `N - 1 - k`. -/
lemma reflectIndex_after (N p k : Nat) (h1 : 1 ≤ k) (h2 : k ≤ N - 1) :
    reflectIndex N p (p + (N - 1) + k) = N - 1 - k := by
  unfold reflectIndex; split_ifs <;> omega

/-- `output_shape` pairs the two independent per-axis results,
propagating the first error. -/
lemma output_shape_eq (hSpec wSpec : AxisSpec) :
    output_shape hSpec wSpec =
      match output_size hSpec, output_size wSpec with
      | .ok a, .ok b => .ok (a, b)
      | .error e, _ => .error e
      | .ok _, .error e => .error e := by
  unfold output_shape
  cases output_size hSpec <;> cases output_size wSpec <;> rfl

/-! ## Claim theorems -/

/-- C1: for every valid `AxisSpec`, `output_size` returns
`⌊(input - kernel + padding + stride) / stride⌋` computed with genuine
floor division, and `output_shape` applies this 1-D formula to the
height axis and the width axis independently, with no interaction
between the axes. -/
theorem C1_output_size_is_floor_formula (a hSpec wSpec : AxisSpec)
    (ha : ¬ badArgs a) (hg : ¬ badGeom a) :
    output_size a = .ok ⌊(formulaNum a : ℚ) / (a.stride : ℚ)⌋ ∧
    (∀ x y : Int, output_shape hSpec wSpec = .ok (x, y) ↔
      output_size hSpec = .ok x ∧ output_size wSpec = .ok y) := by
  constructor
  · have hs : 0 < a.stride := by
      unfold badArgs at ha; push_neg at ha; exact ha.1
    unfold output_size
    rw [if_neg ha, if_neg hg, ediv_eq_rat_floor _ _ hs]
  · intro x y
    cases hh : output_size hSpec <;> cases hw : output_size wSpec <;>
      simp [output_shape_eq, hh, hw]

/-- Closed witness for C1 at the notebook's `input=8, kernel=3,
padding=2, stride=1` example and Exercise 1's two axis specs. -/
theorem C1_output_size_is_floor_formula_witness :
    ¬ badArgs ⟨8, 3, 2, 1⟩ ∧ ¬ badGeom ⟨8, 3, 2, 1⟩ ∧
    (output_size ⟨8, 3, 2, 1⟩ =
        .ok ⌊(formulaNum ⟨8, 3, 2, 1⟩ : ℚ) / ((1 : Int) : ℚ)⌋ ∧
      (∀ x y : Int, output_shape ⟨8, 3, 0, 3⟩ ⟨8, 5, 1, 4⟩ = .ok (x, y) ↔
        output_size ⟨8, 3, 0, 3⟩ = .ok x ∧
          output_size ⟨8, 5, 1, 4⟩ = .ok y)) :=
  ⟨by decide, by decide,
    C1_output_size_is_floor_formula ⟨8, 3, 2, 1⟩ ⟨8, 3, 0, 3⟩ ⟨8, 5, 1, 4⟩
      (by decide) (by decide)⟩

/-- C3 (counterexample): the claim's second simplification,
"`padding = 0` and `stride ∣ input` imply `output = input / stride`",
fails at the valid spec `input=8, kernel=3, padding=0, stride=2`: the
general formula gives `⌊7/2⌋ = 3` while `input / stride = 4`.  The
notebook applies the divisibility simplification only on top of
`padding = kernel - 1`. -/
theorem C3_counterexample :
    ¬ badArgs ⟨8, 3, 0, 2⟩ ∧ ¬ badGeom ⟨8, 3, 0, 2⟩ ∧
    (⟨8, 3, 0, 2⟩ : AxisSpec).padding = 0 ∧
    (⟨8, 3, 0, 2⟩ : AxisSpec).stride ∣ (⟨8, 3, 0, 2⟩ : AxisSpec).input_size ∧
    output_size ⟨8, 3, 0, 2⟩ = .ok 3 ∧
    (3 : Int) ≠ (⟨8, 3, 0, 2⟩ : AxisSpec).input_size /
      (⟨8, 3, 0, 2⟩ : AxisSpec).stride := by
  refine ⟨by decide, by decide, rfl, ⟨4, by decide⟩, rfl, by decide⟩

/-- C3 (amended): for every `AxisSpec` with positive input, kernel and
stride, when `padding = kernel - 1` the general formula equals the
simplified `⌊(input + stride - 1) / stride⌋`; and when additionally
`stride` divides `input`, it equals `input / stride`. -/
theorem C3_special_case_consistency (a : AxisSpec) (ha : ¬ badArgs a)
    (hp : (a.padding : Int) = a.kernel_size - 1) :
    output_size a = .ok ((a.input_size + a.stride - 1) / a.stride) ∧
    (a.stride ∣ a.input_size →
      (a.input_size + a.stride - 1) / a.stride =
        a.input_size / a.stride) := by
  unfold badArgs at ha; push_neg at ha
  obtain ⟨hs, hk, hi⟩ := ha
  have hnum : formulaNum a = a.input_size + a.stride - 1 := by
    unfold formulaNum; omega
  constructor
  · unfold output_size
    rw [if_neg (by unfold badArgs; push_neg; exact ⟨hs, hk, hi⟩),
      if_neg (by unfold badGeom; push_neg; constructor <;> omega), hnum]
  · rintro ⟨q, hq⟩
    have h0 : (0 : Int) ≤ a.stride - 1 := by omega
    have h1 : a.stride - 1 < a.stride := by omega
    rw [hq,
      show a.stride * q + a.stride - 1 = (a.stride - 1) + q * a.stride from
        by ring,
      Int.add_mul_ediv_right _ _ hs.ne', Int.ediv_eq_zero_of_lt h0 h1,
      Int.mul_ediv_cancel_left _ hs.ne']
    omega

/-- Closed witness for the amended C3 at `input=8, kernel=3, padding=2,
stride=2`, where `padding = kernel - 1` and `stride ∣ input`. -/
theorem C3_special_case_consistency_witness :
    ¬ badArgs ⟨8, 3, 2, 2⟩ ∧
    ((⟨8, 3, 2, 2⟩ : AxisSpec).padding : Int) =
      (⟨8, 3, 2, 2⟩ : AxisSpec).kernel_size - 1 ∧
    (output_size ⟨8, 3, 2, 2⟩ = .ok (((8 : Int) + 2 - 1) / 2) ∧
      ((2 : Int) ∣ 8 →
        ((8 : Int) + 2 - 1) / 2 = (8 : Int) / 2)) :=
  ⟨by decide, by decide,
    C3_special_case_consistency ⟨8, 3, 2, 2⟩ (by decide) (by decide)⟩

/-- C5: `output_size` signals an error exactly on invalid input —
`InvalidArgument` when stride, kernel or input is non-positive;
`InvalidGeometry` when the arguments pass that check but
`input - kernel + padding + stride ≤ 0` or `kernel > input + padding`;
on every other input it returns a positive integer. -/
theorem C5_error_policy (a : AxisSpec) :
    (output_size a = .error .InvalidArgument ↔ badArgs a) ∧
    (output_size a = .error .InvalidGeometry ↔ ¬ badArgs a ∧ badGeom a) ∧
    (¬ badArgs a → ¬ badGeom a →
      output_size a = .ok (formulaNum a / a.stride) ∧
        0 < formulaNum a / a.stride) := by
  by_cases ha : badArgs a
  · refine ⟨⟨fun _ => ha, fun _ => by unfold output_size; rw [if_pos ha]⟩,
      ⟨fun he => ?_, fun hd => absurd ha hd.1⟩, fun hna _ => absurd ha hna⟩
    unfold output_size at he
    rw [if_pos ha] at he
    exact absurd (Except.error.inj he) (by decide)
  · by_cases hg : badGeom a
    · refine ⟨⟨fun he => ?_, fun hd => absurd hd ha⟩,
        ⟨fun _ => ⟨ha, hg⟩,
          fun _ => by unfold output_size; rw [if_neg ha, if_pos hg]⟩,
        fun _ hng => absurd hg hng⟩
      unfold output_size at he
      rw [if_neg ha, if_pos hg] at he
      exact absurd (Except.error.inj he) (by decide)
    · have hok : output_size a = .ok (formulaNum a / a.stride) := by
        unfold output_size; rw [if_neg ha, if_neg hg]
      refine ⟨⟨fun he => ?_, fun hd => absurd hd ha⟩,
        ⟨fun he => ?_, fun hd => absurd hd.2 hg⟩,
        fun _ _ => ⟨hok, ?_⟩⟩
      · rw [hok] at he; exact Except.noConfusion he
      · rw [hok] at he; exact Except.noConfusion he
      · unfold badArgs at ha; push_neg at ha
        unfold badGeom at hg; push_neg at hg
        have hs : 0 < a.stride := ha.1
        have hge : a.stride ≤ formulaNum a := by
          unfold formulaNum; omega
        calc 0 < a.stride / a.stride := by rw [Int.ediv_self hs.ne']; omega
          _ ≤ formulaNum a / a.stride := Int.ediv_le_ediv hs hge

/-- Closed witness for C5 at the notebook's `input=8, kernel=3,
padding=2, stride=2` example. -/
theorem C5_error_policy_witness :
    ¬ badArgs ⟨8, 3, 2, 2⟩ ∧ ¬ badGeom ⟨8, 3, 2, 2⟩ ∧
    (output_size ⟨8, 3, 2, 2⟩ =
        .ok (formulaNum ⟨8, 3, 2, 2⟩ / (2 : Int)) ∧
      0 < formulaNum ⟨8, 3, 2, 2⟩ / (2 : Int)) :=
  ⟨by decide, by decide,
    (C5_error_policy ⟨8, 3, 2, 2⟩).2.2 (by decide) (by decide)⟩

/-- C7: Exercise 1's configuration — an 8×8 input, kernel `(3, 5)`,
padding `(0, 1)`, strides `(3, 4)` — yields output shape `(2, 2)`. -/
theorem C7_exercise1_shape :
    output_shape ⟨8, 3, 0, 3⟩ ⟨8, 5, 1, 4⟩ = .ok (2, 2) := by
  rfl

/-- C8: the notebook's two `8×8` demonstrations — kernel 3, total
padding 2, stride 1 gives output 8; kernel 3, total padding 2, stride 2
gives output 4. -/
theorem C8_demo_sizes :
    output_size ⟨8, 3, 2, 1⟩ = .ok 8 ∧
    output_size ⟨8, 3, 2, 2⟩ = .ok 4 := by
  exact ⟨rfl, rfl⟩

/-- C9 (counterexample): with kernel size 5 (and the notebook's
stride 2, padding 1, output padding 1), input length 10 produces output
length 22, not `2·10`; the claimed `2L` output length holds only for
kernel size 3. -/
theorem C9_counterexample :
    conv_transpose1d_len 10 5 2 1 1 = 22 ∧ (22 : Int) ≠ 2 * 10 := by
  exact ⟨rfl, by decide⟩

/-- C9 (amended): with stride 2, padding 1 and output padding 1, a 1-D
transposed convolution maps input length `L` to output length
`2L + k - 3` for kernel size `k`; in particular to exactly `2L` for the
kernel size 3 used by the notebook's `HalfStrideConvTranspose` run. -/
theorem C9_half_stride_length (L k : Nat) :
    conv_transpose1d_len L k 2 1 1 = 2 * (L : Int) + (k : Int) - 3 ∧
    conv_transpose1d_len L 3 2 1 1 = 2 * (L : Int) := by
  unfold conv_transpose1d_len
  constructor <;> push_cast <;> ring

/-- C2: for every grid and reflectable pad amounts, `reflect_pad`
returns a grid of height `H + pad_top + pad_bottom` and width
`W + pad_left + pad_right` whose interior block equals the source grid
unchanged, and whose padded positions `k` steps outside a boundary hold
the source value `k` steps inside that boundary (the boundary pixel is
not duplicated) — in particular an 8×8 grid padded by 1 on all four
sides yields the notebook's 10×10 result. -/
theorem C2_reflect_pad_shape_and_borders (α : Type) (g : Grid2D α)
    (pt pb pl pr : Nat)
    (hpt : ¬ padTooBig g.H pt) (hpb : ¬ padTooBig g.H pb)
    (hpl : ¬ padTooBig g.W pl) (hpr : ¬ padTooBig g.W pr) :
    ∃ g' : Grid2D α, reflect_pad g pt pb pl pr = .ok g' ∧
      g'.H = g.H + pt + pb ∧ g'.W = g.W + pl + pr ∧
      (∀ i j, i < g.H → j < g.W → g'.val (pt + i) (pl + j) = g.val i j) ∧
      (∀ k j, 1 ≤ k → k ≤ pt → j < g.W →
        g'.val (pt - k) (pl + j) = g.val k j) ∧
      (∀ k j, 1 ≤ k → k ≤ pb → j < g.W →
        g'.val (pt + (g.H - 1) + k) (pl + j) = g.val (g.H - 1 - k) j) ∧
      (∀ i k, i < g.H → 1 ≤ k → k ≤ pl →
        g'.val (pt + i) (pl - k) = g.val i k) ∧
      (∀ i k, i < g.H → 1 ≤ k → k ≤ pr →
        g'.val (pt + i) (pl + (g.W - 1) + k) = g.val i (g.W - 1 - k)) := by
  have hH : 1 ≤ g.H := by
    unfold padTooBig at hpt; omega
  have hW : 1 ≤ g.W := by
    unfold padTooBig at hpl; omega
  have hpb' : pb ≤ g.H - 1 := by
    unfold padTooBig at hpb; omega
  have hpr' : pr ≤ g.W - 1 := by
    unfold padTooBig at hpr; omega
  unfold reflect_pad
  rw [if_neg (by tauto)]
  refine ⟨_, rfl, rfl, rfl, ?_, ?_, ?_, ?_, ?_⟩
  · intro i j hi hj
    show g.val (reflectIndex g.H pt (pt + i))
      (reflectIndex g.W pl (pl + j)) = g.val i j
    rw [reflectIndex_interior _ _ _ hi, reflectIndex_interior _ _ _ hj]
  · intro k j h1 h2 hj
    show g.val (reflectIndex g.H pt (pt - k))
      (reflectIndex g.W pl (pl + j)) = g.val k j
    rw [reflectIndex_before _ _ _ h1 h2, reflectIndex_interior _ _ _ hj]
  · intro k j h1 h2 hj
    show g.val (reflectIndex g.H pt (pt + (g.H - 1) + k))
      (reflectIndex g.W pl (pl + j)) = g.val (g.H - 1 - k) j
    rw [reflectIndex_after _ _ _ h1 (h2.trans hpb'),
      reflectIndex_interior _ _ _ hj]
  · intro i k hi h1 h2
    show g.val (reflectIndex g.H pt (pt + i))
      (reflectIndex g.W pl (pl - k)) = g.val i k
    rw [reflectIndex_interior _ _ _ hi, reflectIndex_before _ _ _ h1 h2]
  · intro i k hi h1 h2
    show g.val (reflectIndex g.H pt (pt + i))
      (reflectIndex g.W pl (pl + (g.W - 1) + k)) = g.val i (g.W - 1 - k)
    rw [reflectIndex_interior _ _ _ hi,
      reflectIndex_after _ _ _ h1 (h2.trans hpr')]

/-- Closed witness for C2 at the notebook's 8×8 demonstration grid with
pad 1 on all four sides. -/
theorem C2_reflect_pad_shape_and_borders_witness :
    ¬ padTooBig demoGrid.H 1 ∧ ¬ padTooBig demoGrid.W 1 ∧
    (∃ g' : Grid2D Int, reflect_pad demoGrid 1 1 1 1 = .ok g' ∧
      g'.H = demoGrid.H + 1 + 1 ∧ g'.W = demoGrid.W + 1 + 1 ∧
      (∀ i j, i < demoGrid.H → j < demoGrid.W →
        g'.val (1 + i) (1 + j) = demoGrid.val i j) ∧
      (∀ k j, 1 ≤ k → k ≤ 1 → j < demoGrid.W →
        g'.val (1 - k) (1 + j) = demoGrid.val k j) ∧
      (∀ k j, 1 ≤ k → k ≤ 1 → j < demoGrid.W →
        g'.val (1 + (demoGrid.H - 1) + k) (1 + j) =
          demoGrid.val (demoGrid.H - 1 - k) j) ∧
      (∀ i k, i < demoGrid.H → 1 ≤ k → k ≤ 1 →
        g'.val (1 + i) (1 - k) = demoGrid.val i k) ∧
      (∀ i k, i < demoGrid.H → 1 ≤ k → k ≤ 1 →
        g'.val (1 + i) (1 + (demoGrid.W - 1) + k) =
          demoGrid.val i (demoGrid.W - 1 - k))) :=
  ⟨by decide, by decide,
    C2_reflect_pad_shape_and_borders Int demoGrid 1 1 1 1
      (by decide) (by decide) (by decide) (by decide)⟩

/-- C4: mirror padding of the row axis and of the column axis commute —
padding rows first and then columns yields a grid identical to padding
columns first and then rows, for every grid and all pad amounts
(including the rejecting cases, which fail identically). -/
theorem C4_row_col_padding_commutes (α : Type) (g : Grid2D α)
    (pt pb pl pr : Nat) :
    (reflect_pad_rows g pt pb).bind (fun g2 => reflect_pad_cols g2 pl pr) =
      (reflect_pad_cols g pl pr).bind
        (fun g2 => reflect_pad_rows g2 pt pb) := by
  unfold reflect_pad_rows reflect_pad_cols
  by_cases hr : padTooBig g.H pt ∨ padTooBig g.H pb <;>
    by_cases hc : padTooBig g.W pl ∨ padTooBig g.W pr <;>
      simp [hr, hc, Except.bind]

/-- C6: `reflect_pad` signals `InvalidArgument` exactly when some
requested pad amount `p` on an axis of extent `N` has `p > N - 1`, and
accepts (returns a padded grid for) all pad amounts within that
bound. -/
theorem C6_pad_amount_bounds (α : Type) (g : Grid2D α)
    (pt pb pl pr : Nat) :
    (reflect_pad g pt pb pl pr = .error .InvalidArgument ↔
      padTooBig g.H pt ∨ padTooBig g.H pb ∨
        padTooBig g.W pl ∨ padTooBig g.W pr) ∧
    (¬ padTooBig g.H pt → ¬ padTooBig g.H pb →
      ¬ padTooBig g.W pl → ¬ padTooBig g.W pr →
        ∃ g' : Grid2D α, reflect_pad g pt pb pl pr = .ok g') := by
  unfold reflect_pad
  by_cases h : padTooBig g.H pt ∨ padTooBig g.H pb ∨
      padTooBig g.W pl ∨ padTooBig g.W pr
  · rw [if_pos h]
    exact ⟨⟨fun _ => h, fun _ => rfl⟩,
      fun h1 h2 h3 h4 => absurd h (by tauto)⟩
  · rw [if_neg h]
    exact ⟨⟨fun he => Except.noConfusion he, fun hd => absurd hd h⟩,
      fun h1 h2 h3 h4 => ⟨_, rfl⟩⟩

/-- Closed witness for C6: pad 9 on an axis of extent 8 is rejected,
pad 1 on all sides of the 8×8 demonstration grid is accepted. -/
theorem C6_pad_amount_bounds_witness :
    reflect_pad demoGrid 9 0 0 0 = .error .InvalidArgument ∧
    (∃ g' : Grid2D Int, reflect_pad demoGrid 1 1 1 1 = .ok g') :=
  ⟨(C6_pad_amount_bounds Int demoGrid 9 0 0 0).1.mpr (by decide),
    (C6_pad_amount_bounds Int demoGrid 1 1 1 1).2
      (by decide) (by decide) (by decide) (by decide)⟩

/-- C10: for every grid with `H ≥ 2` and `W ≥ 2`, the result of
`reflect_pad` with pad 1 on all sides is symmetric about its boundary
rows and columns — output row 0 equals output row 2, the last output
row equals the third-from-last, likewise for columns — and each corner
value equals the source value one step diagonally inside the nearest
source corner. -/
theorem C10_pad1_boundary_symmetry (α : Type) (g : Grid2D α)
    (hH : 2 ≤ g.H) (hW : 2 ≤ g.W) :
    ∃ g' : Grid2D α, reflect_pad g 1 1 1 1 = .ok g' ∧
      (∀ j, g'.val 0 j = g'.val 2 j) ∧
      (∀ j, g'.val (g'.H - 1) j = g'.val (g'.H - 3) j) ∧
      (∀ i, g'.val i 0 = g'.val i 2) ∧
      (∀ i, g'.val i (g'.W - 1) = g'.val i (g'.W - 3)) ∧
      g'.val 0 0 = g.val 1 1 ∧
      g'.val 0 (g'.W - 1) = g.val 1 (g.W - 2) ∧
      g'.val (g'.H - 1) 0 = g.val (g.H - 2) 1 ∧
      g'.val (g'.H - 1) (g'.W - 1) = g.val (g.H - 2) (g.W - 2) := by
  have e0H : reflectIndex g.H 1 0 = 1 := by
    unfold reflectIndex; split_ifs <;> omega
  have e2H : reflectIndex g.H 1 2 = 1 := by
    unfold reflectIndex; split_ifs <;> omega
  have e0W : reflectIndex g.W 1 0 = 1 := by
    unfold reflectIndex; split_ifs <;> omega
  have e2W : reflectIndex g.W 1 2 = 1 := by
    unfold reflectIndex; split_ifs <;> omega
  have eLH : reflectIndex g.H 1 (g.H + 1 + 1 - 1) = g.H - 2 := by
    unfold reflectIndex; split_ifs <;> omega
  have eLH3 : reflectIndex g.H 1 (g.H + 1 + 1 - 3) = g.H - 2 := by
    unfold reflectIndex; split_ifs <;> omega
  have eLW : reflectIndex g.W 1 (g.W + 1 + 1 - 1) = g.W - 2 := by
    unfold reflectIndex; split_ifs <;> omega
  have eLW3 : reflectIndex g.W 1 (g.W + 1 + 1 - 3) = g.W - 2 := by
    unfold reflectIndex; split_ifs <;> omega
  unfold reflect_pad
  rw [if_neg (by unfold padTooBig; push_neg; omega)]
  refine ⟨_, rfl, ?_, ?_, ?_, ?_, ?_, ?_, ?_, ?_⟩
  · intro j
    show g.val (reflectIndex g.H 1 0) (reflectIndex g.W 1 j) =
      g.val (reflectIndex g.H 1 2) (reflectIndex g.W 1 j)
    rw [e0H, e2H]
  · intro j
    show g.val (reflectIndex g.H 1 (g.H + 1 + 1 - 1)) (reflectIndex g.W 1 j) =
      g.val (reflectIndex g.H 1 (g.H + 1 + 1 - 3)) (reflectIndex g.W 1 j)
    rw [eLH, eLH3]
  · intro i
    show g.val (reflectIndex g.H 1 i) (reflectIndex g.W 1 0) =
      g.val (reflectIndex g.H 1 i) (reflectIndex g.W 1 2)
    rw [e0W, e2W]
  · intro i
    show g.val (reflectIndex g.H 1 i) (reflectIndex g.W 1 (g.W + 1 + 1 - 1)) =
      g.val (reflectIndex g.H 1 i) (reflectIndex g.W 1 (g.W + 1 + 1 - 3))
    rw [eLW, eLW3]
  · show g.val (reflectIndex g.H 1 0) (reflectIndex g.W 1 0) = g.val 1 1
    rw [e0H, e0W]
  · show g.val (reflectIndex g.H 1 0)
      (reflectIndex g.W 1 (g.W + 1 + 1 - 1)) = g.val 1 (g.W - 2)
    rw [e0H, eLW]
  · show g.val (reflectIndex g.H 1 (g.H + 1 + 1 - 1))
      (reflectIndex g.W 1 0) = g.val (g.H - 2) 1
    rw [eLH, e0W]
  · show g.val (reflectIndex g.H 1 (g.H + 1 + 1 - 1))
      (reflectIndex g.W 1 (g.W + 1 + 1 - 1)) = g.val (g.H - 2) (g.W - 2)
    rw [eLH, eLW]

/-- Closed witness for C10 at the notebook's 8×8 demonstration grid. -/
theorem C10_pad1_boundary_symmetry_witness :
    2 ≤ demoGrid.H ∧ 2 ≤ demoGrid.W ∧
    (∃ g' : Grid2D Int, reflect_pad demoGrid 1 1 1 1 = .ok g' ∧
      (∀ j, g'.val 0 j = g'.val 2 j) ∧
      (∀ j, g'.val (g'.H - 1) j = g'.val (g'.H - 3) j) ∧
      (∀ i, g'.val i 0 = g'.val i 2) ∧
      (∀ i, g'.val i (g'.W - 1) = g'.val i (g'.W - 3)) ∧
      g'.val 0 0 = demoGrid.val 1 1 ∧
      g'.val 0 (g'.W - 1) = demoGrid.val 1 (demoGrid.W - 2) ∧
      g'.val (g'.H - 1) 0 = demoGrid.val (demoGrid.H - 2) 1 ∧
      g'.val (g'.H - 1) (g'.W - 1) =
        demoGrid.val (demoGrid.H - 2) (demoGrid.W - 2)) :=
  ⟨by decide, by decide,
    C10_pad1_boundary_symmetry Int demoGrid (by decide) (by decide)⟩

end D2L

